import Mathlib

/-!
# Verification of the citation submission queue and adapter layer

Shallow embedding of the citation-submission core of the `citations`
repository: the per-provider adapter helpers (`src/lib/api/citations/base.ts`,
`src/lib/api/citations/foursquare.ts`), the sync workflow
(`src/lib/sync/citations.ts`) and the batch-completion check of the cron
route (`src/app/api/cron/sync/route.ts`).

Conventions of the embedding:
* timestamps are `Nat` (milliseconds); nullable columns are `Option`;
* JavaScript string truthiness (`null`/`undefined`/`""` are falsy) is made
  explicit via `strTruthy` / `strOr`;
* network and database effects are passed in as explicit outcome values, and
  the functions return the writes they would perform.
-/

set_option maxRecDepth 10000

namespace Citations

/-- Submission status column of `citation_submissions`
(`src/lib/sync/citations.ts`, `CitationSubmission.status`). -/
inductive SubmissionStatus where
  | pending
  | queued
  | submitting
  | submitted
  | verified
  | error
  | needs_update
deriving DecidableEq, Repr

/-- Queue item action (`CitationQueueItem.action`). -/
inductive QueueAction where
  | submit
  | update
  | verify
  | delete
deriving DecidableEq, Repr

/-- Row of `citation_submissions` (fields used by the sync workflow). -/
structure CitationSubmission where
  id : Nat
  domain_id : Nat
  provider_slug : String
  external_id : Option String
  external_url : Option String
  status : SubmissionStatus
  brand_info_hash : Option String
  error_message : Option String
  error_count : Nat
  last_submitted_at : Option Nat
  last_verified_at : Option Nat
  last_error_at : Option Nat
deriving DecidableEq, Repr

/-- Row of `citation_queue`. -/
structure CitationQueueItem where
  id : Nat
  submission_id : Nat
  action : QueueAction
  priority : Int
  attempts : Nat
  max_attempts : Nat
  scheduled_at : Nat
  started_at : Option Nat
  completed_at : Option Nat
  error_message : Option String
  batch_id : Option Nat
deriving DecidableEq, Repr

/-- Batch status column of `citation_batches`. -/
inductive BatchStatus where
  | pending
  | processing
  | completed
  | failed
  | cancelled
deriving DecidableEq, Repr

/-- Row of `citation_batches` (fields used by the workflow). -/
structure CitationBatch where
  id : Nat
  status : BatchStatus
  total_submissions : Nat
  completed_submissions : Nat
  failed_submissions : Nat
  started_at : Option Nat
  completed_at : Option Nat
deriving DecidableEq, Repr

/-- JavaScript truthiness of a nullable string: `null`/`undefined` and `""`
are falsy, everything else is truthy. -/
def strTruthy : Option String → Bool
  | none => false
  | some s => !(s == "")

/-- JavaScript `v || dflt` on a nullable string (empty string falls back). -/
def strOr (v : Option String) (dflt : String) : String :=
  match v with
  | none => dflt
  | some s => if s == "" then dflt else s

/-- One entry of the weekly-hours map: `{ open: string; close: string }`. -/
structure HoursEntry where
  «open» : String
  close : String
deriving DecidableEq, Repr

/-- `NormalizedLocation` (`src/lib/api/citations/base.ts`).  The `hours` and
`socialLinks` maps are embedded as association lists so that the key
insertion order of the JavaScript objects is represented. -/
structure NormalizedLocation where
  businessName : String
  street : String
  city : String
  state : String
  zip : String
  country : String
  phone : Option String := none
  email : Option String := none
  website : Option String := none
  description : Option String := none
  categories : Option (List String) := none
  hours : Option (List (String × HoursEntry)) := none
  socialLinks : Option (List (String × String)) := none
  logoUrl : Option String := none
  imageUrls : Option (List String) := none
deriving DecidableEq, Repr

/-- `BrandInfo` (`src/lib/db/index.ts`): the stored brand record
(id/domain_id/timestamp columns that the adapter layer never reads are
omitted). -/
structure BrandInfo where
  business_name : String
  street : Option String := none
  city : Option String := none
  state : Option String := none
  zip : Option String := none
  country : String := "US"
  phone : Option String := none
  email : Option String := none
  website : Option String := none
  categories : Option (List String) := none
  description : Option String := none
  hours : Option (List (String × HoursEntry)) := none
  social_links : Option (List (String × String)) := none
  logo_url : Option String := none
  image_urls : Option (List String) := none
deriving DecidableEq, Repr

/-- JavaScript `v || undefined` on a nullable string: an empty string is
replaced by `undefined`. -/
def strOrUndefined : Option String → Option String
  | none => none
  | some s => if s == "" then none else some s

/-- `BaseCitationClient.normalizeBrandInfo`
(`src/lib/api/citations/base.ts`, lines 97-115). -/
def normalizeBrandInfo (b : BrandInfo) : NormalizedLocation where
  businessName := b.business_name
  street := strOr b.street ""
  city := strOr b.city ""
  state := strOr b.state ""
  zip := strOr b.zip ""
  country := strOr (some b.country) "US"
  phone := strOrUndefined b.phone
  email := strOrUndefined b.email
  website := strOrUndefined b.website
  description := strOrUndefined b.description
  categories := b.categories
  hours := b.hours
  socialLinks := b.social_links
  logoUrl := strOrUndefined b.logo_url
  imageUrls := b.image_urls

/-- `BaseCitationClient.formatPhone` (`src/lib/api/citations/base.ts`,
lines 129-140).  `phone.replace(/\D/g, '')` keeps exactly the ASCII digits. -/
def formatPhone (phone : Option String) : Option String :=
  match phone with
  | none => none
  | some p =>
    if p == "" then none
    else
      let digits := String.mk (p.data.filter Char.isDigit)
      if digits.length = 10 then some ("+1" ++ digits)
      else if digits.length = 11 && digits.startsWith "1" then some ("+" ++ digits)
      else some p

/-- `BaseCitationClient.validateRequired` (`src/lib/api/citations/base.ts`,
lines 153-167).  Returns `(valid, errors)`; a field is "missing" when it is
falsy, i.e. the empty string. -/
def validateRequired (loc : NormalizedLocation) : Bool × List String :=
  let errors :=
    (if loc.businessName == "" then ["Business name is required"] else []) ++
    (if loc.street == "" then ["Street address is required"] else []) ++
    (if loc.city == "" then ["City is required"] else []) ++
    (if loc.state == "" then ["State is required"] else []) ++
    (if loc.zip == "" then ["ZIP code is required"] else []) ++
    (if loc.country == "" then ["Country is required"] else [])
  (errors.isEmpty, errors)

/-! ## JSON serialization with a replacer array

`hashBrandInfo` calls `JSON.stringify(normalized, Object.keys(normalized).sort())`.
Per ECMA-262 (`SerializeJSONObject` with a `PropertyList`), when the second
argument of `JSON.stringify` is an array it is a property allowlist applied to
**every** object at **every** nesting level: an object serializes exactly the
properties named in the list, in list order; array elements are always
serialized in full.  The embedding below implements these semantics on a small
JSON value type (`undefined`-valued properties are simply absent from `Jobj`,
matching that `JSON.stringify` omits them). -/

/-- JSON values produced by the normalized location (strings, arrays and
string-keyed objects in insertion order are the only shapes that occur). -/
inductive Jval where
  | str (s : String)
  | arr (elems : List Jval)
  | obj (fields : List (String × Jval))

/-- Lowercase hex digit. -/
def hexDigit (n : Nat) : Char :=
  if n < 10 then Char.ofNat (48 + n) else Char.ofNat (87 + n % 16)

/-- Four lowercase hex digits, as in the `\u00XX` escapes of `JSON.stringify`. -/
def hex4 (n : Nat) : String :=
  String.mk [hexDigit (n / 4096 % 16), hexDigit (n / 256 % 16),
             hexDigit (n / 16 % 16), hexDigit (n % 16)]

/-- `QuoteJSONString` escaping of one character. -/
def jsonEscapeChar (c : Char) : String :=
  if c = '"' then "\\\""
  else if c = '\\' then "\\\\"
  else if c = '\x08' then "\\b"
  else if c = '\x0c' then "\\f"
  else if c = '\n' then "\\n"
  else if c = '\r' then "\\r"
  else if c = '\t' then "\\t"
  else if c.toNat < 32 then "\\u" ++ hex4 c.toNat
  else String.mk [c]

/-- `QuoteJSONString`: a JSON string literal. -/
def jsonQuote (s : String) : String :=
  "\"" ++ String.join (s.data.map jsonEscapeChar) ++ "\""

mutual

/-- `JSON.stringify(v, props)` for a replacer array `props`: objects keep only
the properties named in `props`, in the order of `props`; arrays serialize all
their elements.  (The object case serializes every stored field and then
selects by `props`; since `List.lookup` commutes with the per-field
serialization this equals ECMA-262's lookup-then-serialize order.) -/
def stringifyWith (props : List String) : Jval → String
  | .str s => jsonQuote s
  | .arr elems => "[" ++ String.intercalate "," (stringifyElems props elems) ++ "]"
  | .obj fields =>
    "\x7b" ++ String.intercalate ","
      (props.filterMap fun k =>
        ((stringifyFields props fields).lookup k).map fun sv =>
          jsonQuote k ++ ":" ++ sv) ++ "\x7d"

/-- Serialize each array element. -/
def stringifyElems (props : List String) : List Jval → List String
  | [] => []
  | v :: vs => stringifyWith props v :: stringifyElems props vs

/-- Serialize the value of each stored object field, keeping insertion order. -/
def stringifyFields (props : List String) : List (String × Jval) → List (String × String)
  | [] => []
  | (k, v) :: fs => (k, stringifyWith props v) :: stringifyFields props fs

end

/-- A JSON object field that is absent when the value is `undefined`. -/
def optField (k : String) (v : Option Jval) : List (String × Jval) :=
  match v with
  | some j => [(k, j)]
  | none => []

/-- The weekly-hours map as a JSON object (insertion order preserved). -/
def hoursToJval (h : List (String × HoursEntry)) : Jval :=
  .obj (h.map fun kv => (kv.1, .obj [("open", .str kv.2.«open»), ("close", .str kv.2.close)]))

/-- The social-links map as a JSON object (insertion order preserved). -/
def socialLinksToJval (sl : List (String × String)) : Jval :=
  .obj (sl.map fun kv => (kv.1, Jval.str kv.2))

/-- The JavaScript object literal built by `normalizeBrandInfo`, with its
properties in the literal's insertion order (`undefined` fields omitted from
serialization). -/
def locToJval (loc : NormalizedLocation) : Jval :=
  .obj
    ([("businessName", Jval.str loc.businessName),
      ("street", Jval.str loc.street),
      ("city", Jval.str loc.city),
      ("state", Jval.str loc.state),
      ("zip", Jval.str loc.zip),
      ("country", Jval.str loc.country)]
     ++ optField "phone" (loc.phone.map .str)
     ++ optField "email" (loc.email.map .str)
     ++ optField "website" (loc.website.map .str)
     ++ optField "description" (loc.description.map .str)
     ++ optField "categories" (loc.categories.map fun cs => .arr (cs.map .str))
     ++ optField "hours" (loc.hours.map hoursToJval)
     ++ optField "socialLinks" (loc.socialLinks.map socialLinksToJval)
     ++ optField "logoUrl" (loc.logoUrl.map .str)
     ++ optField "imageUrls" (loc.imageUrls.map fun us => .arr (us.map .str)))

/-- `Object.keys(normalized).sort()`: the fifteen top-level property names of
the object literal of `normalizeBrandInfo` (own properties with `undefined`
values included), in ascending code-unit order. -/
def normalizedKeys : List String :=
  ["businessName", "categories", "city", "country", "description", "email",
   "hours", "imageUrls", "logoUrl", "phone", "socialLinks", "state", "street",
   "website", "zip"]

/-- `JSON.stringify(normalized, Object.keys(normalized).sort())` as computed by
`hashBrandInfo` (`src/lib/api/citations/base.ts`, line 122). -/
def serializeNormalized (loc : NormalizedLocation) : String :=
  stringifyWith normalizedKeys (locToJval loc)

/-! ## SHA-256 (Node `crypto.createHash('sha256')`), hex digest -/

/-- Truncate to a 32-bit word. -/
def w32 (n : Nat) : Nat := n % 4294967296

/-- Right rotation of a 32-bit word. -/
def rotr (k x : Nat) : Nat := w32 ((x >>> k) ||| (x <<< (32 - k)))

/-- SHA-256 `Ch`. -/
def shaCh (x y z : Nat) : Nat := (x &&& y) ^^^ ((x ^^^ 4294967295) &&& z)

/-- SHA-256 `Maj`. -/
def shaMaj (x y z : Nat) : Nat := (x &&& y) ^^^ (x &&& z) ^^^ (y &&& z)

/-- SHA-256 `Σ0`. -/
def bigSigma0 (x : Nat) : Nat := rotr 2 x ^^^ rotr 13 x ^^^ rotr 22 x

/-- SHA-256 `Σ1`. -/
def bigSigma1 (x : Nat) : Nat := rotr 6 x ^^^ rotr 11 x ^^^ rotr 25 x

/-- SHA-256 `σ0`. -/
def smallSigma0 (x : Nat) : Nat := rotr 7 x ^^^ rotr 18 x ^^^ (x >>> 3)

/-- SHA-256 `σ1`. -/
def smallSigma1 (x : Nat) : Nat := rotr 17 x ^^^ rotr 19 x ^^^ (x >>> 10)

/-- The 64 SHA-256 round constants (FIPS 180-4 §4.2.2, written in
decimal). -/
def sha256K : List Nat :=
  [1116352408, 1899447441, 3049323471, 3921009573, 961987163,
   1508970993, 2453635748, 2870763221, 3624381080, 310598401,
   607225278, 1426881987, 1925078388, 2162078206, 2614888103,
   3248222580, 3835390401, 4022224774, 264347078, 604807628,
   770255983, 1249150122, 1555081692, 1996064986, 2554220882,
   2821834349, 2952996808, 3210313671, 3336571891, 3584528711,
   113926993, 338241895, 666307205, 773529912, 1294757372,
   1396182291, 1695183700, 1986661051, 2177026350, 2456956037,
   2730485921, 2820302411, 3259730800, 3345764771, 3516065817,
   3600352804, 4094571909, 275423344, 430227734, 506948616,
   659060556, 883997877, 958139571, 1322822218, 1537002063,
   1747873779, 1955562222, 2024104815, 2227730452, 2361852424,
   2428436474, 2756734187, 3204031479, 3329325298]

/-- The initial SHA-256 hash value (FIPS 180-4 §5.3.3, written in
decimal). -/
def sha256H0 : List Nat :=
  [1779033703, 3144134277, 1013904242, 2773480762,
   1359893119, 2600822924, 528734635, 1541459225]

/-- Big-endian bytes of a value, fixed width. -/
def beBytes : Nat → Nat → List Nat
  | 0, _ => []
  | n + 1, v => beBytes n (v / 256) ++ [v % 256]

/-- SHA-256 message padding of a byte sequence. -/
def sha256pad (msg : List Nat) : List Nat :=
  msg ++ 0x80 :: List.replicate ((119 - msg.length % 64) % 64) 0
      ++ beBytes 8 (msg.length * 8)

/-- Big-endian 32-bit words of a byte sequence. -/
def toWordsBE : List Nat → List Nat
  | b0 :: b1 :: b2 :: b3 :: rest =>
    (((b0 * 256 + b1) * 256 + b2) * 256 + b3) :: toWordsBE rest
  | _ => []

/-- Partition a word list into 16-word blocks. -/
def chunks16 : List Nat → List (List Nat)
  | w0 :: w1 :: w2 :: w3 :: w4 :: w5 :: w6 :: w7 ::
    w8 :: w9 :: w10 :: w11 :: w12 :: w13 :: w14 :: w15 :: rest =>
    [w0, w1, w2, w3, w4, w5, w6, w7, w8, w9, w10, w11, w12, w13, w14, w15]
      :: chunks16 rest
  | _ => []

/-- One message-schedule extension step (appends `W[t]` for the next `t`). -/
def schedStep (ws : List Nat) : List Nat :=
  ws ++ [w32 (smallSigma1 (ws.getD (ws.length - 2) 0) + ws.getD (ws.length - 7) 0
              + smallSigma0 (ws.getD (ws.length - 15) 0) + ws.getD (ws.length - 16) 0)]

/-- Iterate a function. -/
def applyN (f : α → α) : Nat → α → α
  | 0, a => a
  | n + 1, a => applyN f n (f a)

/-- The 64-entry message schedule of a 16-word block. -/
def sha256schedule (block : List Nat) : List Nat := applyN schedStep 48 block

/-- Working variables of the SHA-256 compression loop. -/
structure Sha256State where
  a : Nat
  b : Nat
  c : Nat
  d : Nat
  e : Nat
  f : Nat
  g : Nat
  h : Nat

/-- One round of the SHA-256 compression loop. -/
def sha256round (st : Sha256State) (kw : Nat × Nat) : Sha256State :=
  let t1 := st.h + bigSigma1 st.e + shaCh st.e st.f st.g + kw.1 + kw.2
  let t2 := bigSigma0 st.a + shaMaj st.a st.b st.c
  { a := w32 (t1 + t2), b := st.a, c := st.b, d := st.c,
    e := w32 (st.d + t1), f := st.e, g := st.f, h := st.g }

/-- SHA-256 compression of one block into the running hash. -/
def sha256compress (H : List Nat) (block : List Nat) : List Nat :=
  let st0 : Sha256State :=
    ⟨H.getD 0 0, H.getD 1 0, H.getD 2 0, H.getD 3 0,
     H.getD 4 0, H.getD 5 0, H.getD 6 0, H.getD 7 0⟩
  let st := (sha256K.zip (sha256schedule block)).foldl sha256round st0
  [w32 (H.getD 0 0 + st.a), w32 (H.getD 1 0 + st.b), w32 (H.getD 2 0 + st.c),
   w32 (H.getD 3 0 + st.d), w32 (H.getD 4 0 + st.e), w32 (H.getD 5 0 + st.f),
   w32 (H.getD 6 0 + st.g), w32 (H.getD 7 0 + st.h)]

/-- SHA-256 of a byte sequence, as eight 32-bit words. -/
def sha256words (msg : List Nat) : List Nat :=
  ((chunks16 (toWordsBE (sha256pad msg))).foldl sha256compress sha256H0)

/-- Eight lowercase hex digits of a 32-bit word. -/
def hex8 (n : Nat) : String := hex4 (n / 65536) ++ hex4 (n % 65536)

/-- Lowercase hex digest of SHA-256, as Node's `digest('hex')`. -/
def sha256hex (msg : List Nat) : String :=
  String.join ((sha256words msg).map hex8)

/-- UTF-8 encoding of one code point. -/
def utf8Char (n : Nat) : List Nat :=
  if n < 128 then [n]
  else if n < 2048 then [192 ||| (n >>> 6), 128 ||| (n &&& 63)]
  else if n < 65536 then
    [224 ||| (n >>> 12), 128 ||| ((n >>> 6) &&& 63), 128 ||| (n &&& 63)]
  else
    [240 ||| (n >>> 18), 128 ||| ((n >>> 12) &&& 63),
     128 ||| ((n >>> 6) &&& 63), 128 ||| (n &&& 63)]

/-- UTF-8 bytes of a string (`hash.update(data)` encodes strings as UTF-8). -/
def utf8Bytes (s : String) : List Nat :=
  (s.data.map fun c => utf8Char c.toNat).flatten

/-- `BaseCitationClient.hashBrandInfo` (`src/lib/api/citations/base.ts`,
lines 120-124): serialize the normalized form with the sorted-keys replacer
array, SHA-256 it, and keep the first 16 hex characters. -/
def hashBrandInfo (b : BrandInfo) : String :=
  (sha256hex (utf8Bytes (serializeNormalized (normalizeBrandInfo b)))).take 16

/-! ## Orchestrator: queueing a domain (`queueDomainForSubmission`) -/

/-- The store writes performed by one provider-slug iteration of
`queueDomainForSubmission` (`src/lib/sync/citations.ts`, lines 359-412):
the upserted submission row, if any, and the actions of the queue items
inserted by `addToQueue`. -/
structure QueueStepEffects where
  upserted : Option CitationSubmission
  enqueued : List QueueAction
deriving DecidableEq, Repr

/-- The fresh submission row created when no submission exists for
`(domain_id, provider_slug)` (`src/lib/sync/citations.ts`, lines 395-408);
`newId` stands for the store-generated row id. -/
def newSubmission (newId domainId : Nat) (slug hash : String) : CitationSubmission where
  id := newId
  domain_id := domainId
  provider_slug := slug
  external_id := none
  external_url := none
  status := .queued
  brand_info_hash := some hash
  error_message := none
  error_count := 0
  last_submitted_at := none
  last_verified_at := none
  last_error_at := none

/-- One provider-slug iteration of `queueDomainForSubmission`
(`src/lib/sync/citations.ts`, lines 372-412), after the adapter has been
found and `isConfigured()` returned true.  `existing` is the stored
submission for `(domainId, slug)`, `hash` the freshly computed
`hashBrandInfo` value. -/
def queueDomainStep (newId domainId : Nat) (slug hash : String)
    (existing : Option CitationSubmission) : QueueStepEffects :=
  match existing with
  | some e =>
    if e.brand_info_hash = some hash ∧ e.status = .verified then
      { upserted := none, enqueued := [] }
    else
      { upserted := some { e with status := .queued, brand_info_hash := some hash },
        enqueued := [if strTruthy e.external_id then .update else .submit] }
  | none =>
    { upserted := some (newSubmission newId domainId slug hash),
      enqueued := [.submit] }

/-! ## Orchestrator: processing one queue item (`processQueueItem`) -/

/-- Adapter verify status (`CitationVerifyResult.status`). -/
inductive VerifyStatus where
  | verified
  | pending
  | not_found
  | error
deriving DecidableEq, Repr

/-- A successful adapter return value, unified over
`CitationSubmitResult`/`CitationUpdateResult`/`CitationVerifyResult`/
`CitationDeleteResult`: fields that a result shape lacks are `none`
(the code probes them with `'field' in result`). -/
structure AdapterResult where
  success : Bool
  externalId : Option String := none
  externalUrl : Option String := none
  status : Option VerifyStatus := none
  message : Option String := none
  error : Option String := none
deriving DecidableEq, Repr

/-- Outcome of the adapter call made by `processQueueItem`: a returned
result, or a thrown error with its message. -/
inductive AdapterOutcome where
  | ok (r : AdapterResult)
  | thrown (msg : String)
deriving DecidableEq, Repr

/-- The collaborators `processQueueItem` consults: whether
`getCitationClient` finds the provider, whether it `isConfigured()`, whether
`db.getBrandInfo` finds brand info, and the outcome of the adapter call
(if one is made). -/
structure ProcEnv where
  clientKnown : Bool
  clientConfigured : Bool
  brandInfoFound : Bool
  adapter : AdapterOutcome
deriving DecidableEq, Repr

/-- Everything `processQueueItem` leaves behind: the final submission row,
the final queue item row, the returned `{success, message}`, and whether an
adapter operation (network call) was invoked at all. -/
structure ProcOutcome where
  submission : CitationSubmission
  item : CitationQueueItem
  success : Bool
  message : String
  adapterInvoked : Bool
deriving DecidableEq, Repr

/-- The `catch` branch of `processQueueItem`
(`src/lib/sync/citations.ts`, lines 546-562): the submission gets status
`error`, the message, an incremented `error_count` and `last_error_at`;
`markQueueItemFailed` (lines 252-263) records the message on the queue item
and resets `started_at` to null, leaving `completed_at` untouched. -/
def procFail (now : Nat) (sub : CitationSubmission) (item : CitationQueueItem)
    (msg : String) (invoked : Bool) : ProcOutcome where
  submission :=
    { sub with
      status := .error
      error_message := some msg
      error_count := sub.error_count + 1
      last_error_at := some now }
  item := { item with error_message := some msg, started_at := none }
  success := false
  message := msg
  adapterInvoked := invoked

/-- The `No external ID for …` messages of the `update`/`verify`/`delete`
switch cases (`src/lib/sync/citations.ts`, lines 489-503).  The `submit`
case performs no such check. -/
def noExternalIdMsg : QueueAction → String
  | .update => "No external ID for update"
  | .verify => "No external ID for verification"
  | .delete => "No external ID for deletion"
  | .submit => ""

/-- The action name used in the default success message
`` `${item.action} completed successfully` ``. -/
def actionName : QueueAction → String
  | .submit => "submit"
  | .update => "update"
  | .verify => "verify"
  | .delete => "delete"

/-- `processQueueItem` (`src/lib/sync/citations.ts`, lines 457-563) as a
function of the item (joined with its submission) and the collaborator
outcomes.  The intermediate `status: 'submitting'` write is always
overwritten before the function returns and therefore does not appear in the
final state. -/
def processQueueItem (now : Nat) (env : ProcEnv)
    (item : CitationQueueItem) (sub : CitationSubmission) : ProcOutcome :=
  if !env.clientKnown then
    procFail now sub item ("Unknown provider: " ++ sub.provider_slug) false
  else if !env.clientConfigured then
    procFail now sub item ("Provider " ++ sub.provider_slug ++ " is not configured") false
  else if !env.brandInfoFound then
    procFail now sub item "Brand info not found" false
  else if item.action ≠ .submit ∧ ¬ strTruthy sub.external_id then
    procFail now sub item (noExternalIdMsg item.action) false
  else
    match env.adapter with
    | .thrown m => procFail now sub item m true
    | .ok r =>
      if r.success then
        let s0 :=
          { sub with
            status := if item.action = .verify then SubmissionStatus.verified
                      else SubmissionStatus.submitted
            last_submitted_at := some now
            error_message := none }
        let s1 := if strTruthy r.externalId then { s0 with external_id := r.externalId } else s0
        let s2 := if strTruthy r.externalUrl then { s1 with external_url := r.externalUrl } else s1
        let s3 :=
          if r.status = some .verified then
            { s2 with status := .verified, last_verified_at := some now }
          else s2
        { submission := s3
          item := { item with completed_at := some now }
          success := true
          message := strOr r.message (actionName item.action ++ " completed successfully")
          adapterInvoked := true }
      else
        procFail now sub item (strOr r.error "Unknown error") true

/-! ## Queue selection and the drain cycle -/

/-- The selection condition of `getNextQueueItems`
(`src/lib/sync/citations.ts`, lines 191-209): not completed, due, and under
the attempt bound (the latter enforced by the JavaScript-side
`filter(item => item.attempts < item.max_attempts)`). -/
def eligible (now : Nat) (q : CitationQueueItem) : Bool :=
  q.completed_at.isNone && q.scheduled_at ≤ now && q.attempts < q.max_attempts

/-- The drain ordering: `priority` descending, then `scheduled_at`
ascending. -/
def queueLE (a b : CitationQueueItem) : Bool :=
  b.priority < a.priority || (a.priority == b.priority && a.scheduled_at ≤ b.scheduled_at)

/-- The drain ordering as a relation (for use with `List.insertionSort`). -/
def queueRel (a b : CitationQueueItem) : Prop := queueLE a b = true

instance : DecidableRel queueRel := fun _ _ => instDecidableEqBool _ _

instance : IsTotal CitationQueueItem queueRel where
  total a b := by
    simp only [queueRel, queueLE, Bool.or_eq_true, Bool.and_eq_true,
      decide_eq_true_eq, beq_iff_eq]
    omega

instance : IsTrans CitationQueueItem queueRel where
  trans a b c := by
    simp only [queueRel, queueLE, Bool.or_eq_true, Bool.and_eq_true,
      decide_eq_true_eq, beq_iff_eq]
    omega

/-- `getNextQueueItems(limit)` over a queue-table snapshot `st`: the first
`limit` eligible rows in drain order (`order by priority desc,
scheduled_at asc` of the store query). -/
def getNextQueueItems (limit now : Nat) (st : List CitationQueueItem) :
    List CitationQueueItem :=
  ((st.filter (eligible now)).insertionSort queueRel).take limit

/-- The ids selected by one drain cycle. -/
def selectedIds (limit now : Nat) (st : List CitationQueueItem) : List Nat :=
  (getNextQueueItems limit now st).map (·.id)

/-- `markQueueItemStarted` (`src/lib/sync/citations.ts`, lines 211-241):
sets `started_at` and increments `attempts` (the fallback path has the same
net effect). -/
def markQueueItemStarted (now : Nat) (q : CitationQueueItem) : CitationQueueItem :=
  { q with started_at := some now, attempts := q.attempts + 1 }

/-- `markQueueItemCompleted` (lines 243-250). -/
def markQueueItemCompleted (now : Nat) (q : CitationQueueItem) : CitationQueueItem :=
  { q with completed_at := some now }

/-- `markQueueItemFailed` (lines 252-263): records the message and resets
`started_at` so the item can be retried; `completed_at` is not set. -/
def markQueueItemFailed (msg : String) (q : CitationQueueItem) : CitationQueueItem :=
  { q with error_message := some msg, started_at := none }

/-- The queue-item part of processing one selected item in `processQueue`
(`src/lib/sync/citations.ts`, lines 579-598): `markQueueItemStarted` first,
then the adapter call, whose success (`succ`) decides between
`markQueueItemCompleted` and `markQueueItemFailed`. -/
def processedItem (now : Nat) (succ : Bool) (msg : String)
    (q : CitationQueueItem) : CitationQueueItem :=
  if succ then markQueueItemCompleted now (markQueueItemStarted now q)
  else markQueueItemFailed msg (markQueueItemStarted now q)

/-- One drain cycle of `processQueue` acting on the queue table: every
selected item is processed (with per-item success given by `succ` on its
id), all other rows are untouched. -/
def drainCycle (limit now : Nat) (succ : Nat → Bool) (msg : String)
    (st : List CitationQueueItem) : List CitationQueueItem :=
  st.map fun q =>
    if q.id ∈ selectedIds limit now st then processedItem now (succ q.id) msg q else q

/-- Iterated drain cycles, one per `(limit, now)` schedule entry. -/
def drainSeq (succ : Nat → Bool) (msg : String) :
    List (Nat × Nat) → List CitationQueueItem → List CitationQueueItem
  | [], st => st
  | (limit, now) :: rest, st =>
    drainSeq succ msg rest (drainCycle limit now succ msg st)

/-- How many of the scheduled drain cycles select (and hence process) the
queue item with id `id`. -/
def timesSelected (succ : Nat → Bool) (msg : String) (id : Nat) :
    List (Nat × Nat) → List CitationQueueItem → Nat
  | [], _ => 0
  | (limit, now) :: rest, st =>
    (if id ∈ selectedIds limit now st then 1 else 0)
      + timesSelected succ msg id rest (drainCycle limit now succ msg st)

/-- The queue row with a given id. -/
def lookupItem (id : Nat) (st : List CitationQueueItem) : Option CitationQueueItem :=
  st.find? fun q => q.id == id

/-! ## Batch counters and batch completion -/

/-- The per-item batch update of `processQueue`
(`src/lib/sync/citations.ts`, lines 600-609): for a processed item carrying
a batch id, `updateBatchStatus(batch.id, 'processing', counts)` bumps the
matching counter by one (status stays `processing`, so neither `started_at`
nor `completed_at` is touched by `updateBatchStatus`, lines 299-328). -/
def updateBatchCounters (b : CitationBatch) (success : Bool) : CitationBatch :=
  { b with
    status := .processing
    completed_submissions := b.completed_submissions + (if success then 1 else 0)
    failed_submissions := b.failed_submissions + (if success then 0 else 1) }

/-- Batch counter updates over the per-item success flags of all processed
items of the batch, in processing order. -/
def applyBatchResults (b : CitationBatch) (flags : List Bool) : CitationBatch :=
  flags.foldl updateBatchCounters b

/-- The completion check of the citations cron route
(`src/app/api/cron/sync/route.ts`, lines 88-103), applied to a batch in
status `processing`: when `incomplete` — the number of queue items of the
batch with `completed_at` null — is zero, the batch becomes `failed` if
`failed_submissions > 0 && completed_submissions === 0` and `completed`
otherwise (`updateBatchStatus` then also stamps `completed_at`). -/
def checkBatchCompletion (now : Nat) (b : CitationBatch) (incomplete : Nat) :
    CitationBatch :=
  if incomplete = 0 then
    { b with
      status := if 0 < b.failed_submissions ∧ b.completed_submissions = 0
                then BatchStatus.failed else BatchStatus.completed
      completed_at := some now }
  else b

/-! ## Foursquare adapter (`src/lib/api/citations/foursquare.ts`) -/

/-- Whether the character list `pat` is a prefix of `s`. -/
def hasPrefixChars : List Char → List Char → Bool
  | [], _ => true
  | _ :: _, [] => false
  | p :: ps, c :: cs => p == c && hasPrefixChars ps cs

/-- Whether the character list `pat` occurs contiguously in `s`. -/
def containsChars (pat : List Char) : List Char → Bool
  | [] => pat.isEmpty
  | c :: cs => hasPrefixChars pat (c :: cs) || containsChars pat cs

/-- JavaScript `s.includes(pat)`: substring containment. -/
def strIncludes (s pat : String) : Bool := containsChars pat.data s.data

/-- A Foursquare place, with the fields `verify`/`submit` read
(`location.address` is flattened into `address`).  `verified` is an optional
boolean probed by truthiness. -/
structure FoursquarePlace where
  fsq_id : String
  name : String
  address : Option String := none
  verified : Option Bool := none
  date_updated : Option String := none
deriving DecidableEq, Repr

/-- Outcome of one `request` call of the Foursquare client
(`src/lib/api/citations/foursquare.ts`, lines 85-109): a parsed body, a
non-ok HTTP response (which `request` turns into a thrown
`Foursquare API error: ${status} - ${body}`), or some other thrown error
(network failure, missing key, malformed JSON) with its message. -/
inductive FsqFetch (α : Type) where
  | ok (value : α)
  | httpError (status : Nat) (body : String)
  | thrown (msg : String)
deriving DecidableEq, Repr

/-- The message of the `Error` that `request` throws for a non-ok response,
or that otherwise reached the adapter's `catch`. -/
def fsqErrMessage : FsqFetch α → Option String
  | .ok _ => none
  | .httpError status body =>
    some ("Foursquare API error: " ++ toString status ++ " - " ++ body)
  | .thrown m => some m

/-- The `catch` block of `FoursquareClient.verify`
(`src/lib/api/citations/foursquare.ts`, lines 275-289): a caught error whose
message contains `'404'` maps to `{success: true, status: 'not_found'}`; any
other caught error maps to `{success: false, status: 'error'}`. -/
def fsqVerifyCatch (msg : String) : AdapterResult :=
  if strIncludes msg "404" then
    { success := true, status := some .not_found, message := some "Place not found" }
  else
    { success := false, status := some .error, error := some msg }

/-- `FoursquareClient.verify` (`src/lib/api/citations/foursquare.ts`,
lines 266-290) as a function of the `getPlace` outcome: on success the
status is `verified` iff the place's `verified` flag is truthy; every error
goes through the `catch` block with the corresponding message. -/
def fsqVerify : FsqFetch FoursquarePlace → AdapterResult
  | .ok place =>
    { success := true
      status := some (if place.verified = some true then .verified else .pending)
      externalUrl := some ("https://foursquare.com/v/" ++ place.fsq_id) }
  | .httpError status body =>
    fsqVerifyCatch ("Foursquare API error: " ++ toString status ++ " - " ++ body)
  | .thrown m => fsqVerifyCatch m

/-- The duplicate-detection predicate of `FoursquareClient.submit`
(lines 180-184): same lowercased name, and the place's address contains the
lowercased first word of the street. -/
def fsqMatches (loc : NormalizedLocation) (p : FoursquarePlace) : Bool :=
  p.name.toLower == loc.businessName.toLower &&
    match p.address with
    | some a => strIncludes a.toLower ((loc.street.toLower.splitOn " ").headD "")
    | none => false

/-- The collaborator outcomes of `FoursquareClient.submit`: the
`/places/search` call and (if reached) the `/places/propose` call, which on
success returns the new `fsq_id`. -/
structure FsqSubmitEnv where
  search : FsqFetch (List FoursquarePlace)
  propose : FsqFetch String
deriving DecidableEq, Repr

/-- `FoursquareClient.submit` (lines 163-232) plus the count of network
requests it makes (`search`/`propose` are one `request` each). -/
structure FsqSubmitTrace where
  result : AdapterResult
  networkCalls : Nat
deriving DecidableEq, Repr

/-- `FoursquareClient.submit`: validates required fields first and returns
the joined field-error list with no network call on failure; then searches
for an existing match before proposing a new place. -/
def fsqSubmit (loc : NormalizedLocation) (env : FsqSubmitEnv) : FsqSubmitTrace :=
  let validation := validateRequired loc
  if !validation.1 then
    { result := { success := false, error := some (String.intercalate ", " validation.2) }
      networkCalls := 0 }
  else
    match env.search with
    | .ok places =>
      match places.find? (fsqMatches loc) with
      | some p =>
        { result :=
            { success := true
              externalId := some p.fsq_id
              externalUrl := some ("https://foursquare.com/v/" ++ p.fsq_id)
              message := some "Existing place found" }
          networkCalls := 1 }
      | none =>
        match env.propose with
        | .ok fsqId =>
          { result :=
              { success := true
                externalId := some fsqId
                externalUrl := some ("https://foursquare.com/v/" ++ fsqId)
                message := some "Place proposed successfully" }
            networkCalls := 2 }
        | other =>
          { result := { success := false, error := some ((fsqErrMessage other).getD "Unknown error") }
            networkCalls := 2 }
    | other =>
      { result := { success := false, error := some ((fsqErrMessage other).getD "Unknown error") }
        networkCalls := 1 }

/-- A concrete brand record: the spec's §8 scenario location, with a
weekly-hours map and a social link. -/
def brandA : BrandInfo where
  business_name := "Joe's Pizza"
  street := some "12 Main St"
  city := some "Springfield"
  state := some "IL"
  zip := some "62701"
  country := "US"
  phone := some "2175551234"
  hours := some [("monday", ⟨"09:00", "17:00"⟩)]
  social_links := some [("facebook", "https://facebook.com/joes")]

/-- `brandA` with a different Monday opening time and a different social
link and nothing else changed. -/
def brandB : BrandInfo :=
  { brandA with
    hours := some [("monday", ⟨"10:00", "17:00"⟩)]
    social_links := some [("facebook", "https://facebook.com/other")] }

/-- `brandA` with one phone digit changed and nothing else changed. -/
def brandC : BrandInfo := { brandA with phone := some "2175551235" }

/-! ## Theorems -/

/-- **C9**: for every non-empty phone string, `formatPhone` returns `'+1'`
followed by the digits when the input contains exactly 10 digits, `'+'`
followed by the digits when it contains exactly 11 digits starting with
`'1'`, and the original input unchanged in every other case; in particular
`"2175551234"` normalizes to `"+12175551234"`. -/
theorem formatPhone_normalization (p : String) (hp : p ≠ "") :
    (((p.data.filter Char.isDigit).length = 10 →
        formatPhone (some p) = some ("+1" ++ String.mk (p.data.filter Char.isDigit))) ∧
     ((p.data.filter Char.isDigit).length = 11 →
        (String.mk (p.data.filter Char.isDigit)).startsWith "1" = true →
        formatPhone (some p) = some ("+" ++ String.mk (p.data.filter Char.isDigit))) ∧
     (¬ ((p.data.filter Char.isDigit).length = 10 ∨
         ((p.data.filter Char.isDigit).length = 11 ∧
          (String.mk (p.data.filter Char.isDigit)).startsWith "1" = true)) →
        formatPhone (some p) = some p)) ∧
    formatPhone (some "2175551234") = some "+12175551234" := by
  have hbe : (p == "") = false := by simp [hp]
  refine ⟨⟨?_, ?_, ?_⟩, by decide⟩
  · intro h10
    simp [formatPhone, hbe, String.length, h10]
  · intro h11 hsw
    simp [formatPhone, hbe, String.length, h11, hsw]
  · intro hno
    by_cases h10 : (p.data.filter Char.isDigit).length = 10
    · exact absurd (Or.inl h10) hno
    by_cases h11 : (p.data.filter Char.isDigit).length = 11
    · by_cases hsw : (String.mk (p.data.filter Char.isDigit)).startsWith "1" = true
      · exact absurd (Or.inr ⟨h11, hsw⟩) hno
      · simp [formatPhone, hbe, String.length, h10, h11, hsw]
    · simp [formatPhone, hbe, String.length, h10, h11]

/-- Witness for `formatPhone_normalization` at the spec's scenario phone
number. -/
theorem formatPhone_normalization_witness :
    formatPhone (some "2175551234") = some "+12175551234" :=
  (formatPhone_normalization "2175551234" (by decide)).1.1 (by decide)

/-- **C8**: when any required field of a `NormalizedLocation` is empty, the
Foursquare adapter's `submit` returns `success = false` carrying the joined
per-field error list and performs no network request, whatever the provider
would have answered. -/
theorem fsqSubmit_validation_fails_fast (loc : NormalizedLocation) (env : FsqSubmitEnv)
    (h : loc.businessName = "" ∨ loc.street = "" ∨ loc.city = "" ∨
         loc.state = "" ∨ loc.zip = "" ∨ loc.country = "") :
    (fsqSubmit loc env).networkCalls = 0 ∧
    (fsqSubmit loc env).result.success = false ∧
    (fsqSubmit loc env).result.error
      = some (String.intercalate ", " (validateRequired loc).2) ∧
    (validateRequired loc).1 = false ∧
    ("Business name is required" ∈ (validateRequired loc).2 ↔ loc.businessName = "") ∧
    ("Street address is required" ∈ (validateRequired loc).2 ↔ loc.street = "") ∧
    ("City is required" ∈ (validateRequired loc).2 ↔ loc.city = "") ∧
    ("State is required" ∈ (validateRequired loc).2 ↔ loc.state = "") ∧
    ("ZIP code is required" ∈ (validateRequired loc).2 ↔ loc.zip = "") ∧
    ("Country is required" ∈ (validateRequired loc).2 ↔ loc.country = "") := by
  by_cases h1 : loc.businessName = "" <;>
  by_cases h2 : loc.street = "" <;>
  by_cases h3 : loc.city = "" <;>
  by_cases h4 : loc.state = "" <;>
  by_cases h5 : loc.zip = "" <;>
  by_cases h6 : loc.country = "" <;>
  simp_all [fsqSubmit, validateRequired]

/-- Witness for `fsqSubmit_validation_fails_fast`: a location with an empty
street (and every provider call primed to answer, were it made). -/
theorem fsqSubmit_validation_fails_fast_witness :
    (fsqSubmit { businessName := "Joe's Pizza", street := "", city := "Springfield",
                 state := "IL", zip := "62701", country := "US" }
               { search := .ok [], propose := .ok "fsq1" }).networkCalls = 0 ∧
    (fsqSubmit { businessName := "Joe's Pizza", street := "", city := "Springfield",
                 state := "IL", zip := "62701", country := "US" }
               { search := .ok [], propose := .ok "fsq1" }).result.success = false := by
  have h := fsqSubmit_validation_fails_fast
    { businessName := "Joe's Pizza", street := "", city := "Springfield",
      state := "IL", zip := "62701", country := "US" }
    { search := .ok [], propose := .ok "fsq1" }
    (Or.inr (Or.inl rfl))
  exact ⟨h.1, h.2.1⟩

/-- **C1**: one provider iteration of `queueDomainForSubmission` skips (no
upsert, no queue item) iff an existing submission's stored hash equals the
new hash and its status is `verified`; otherwise it upserts the submission
with status `queued` and the new hash and enqueues exactly one item whose
action is `submit` when the submission has no (truthy) external id yet and
`update` otherwise. -/
theorem queueDomainForSubmission_step_spec (newId domainId : Nat) (slug hash : String)
    (existing : Option CitationSubmission) :
    ((queueDomainStep newId domainId slug hash existing).upserted = none ∧
       (queueDomainStep newId domainId slug hash existing).enqueued = [] ↔
     ∃ e, existing = some e ∧ e.brand_info_hash = some hash ∧ e.status = .verified) ∧
    (∀ e, existing = some e →
      ¬ (e.brand_info_hash = some hash ∧ e.status = .verified) →
      queueDomainStep newId domainId slug hash existing =
        { upserted := some { e with status := .queued, brand_info_hash := some hash }
          enqueued := [if strTruthy e.external_id then .update else .submit] }) ∧
    (existing = none →
      queueDomainStep newId domainId slug hash existing =
        { upserted := some (newSubmission newId domainId slug hash)
          enqueued := [.submit] }) := by
  rcases existing with _ | e
  · simp [queueDomainStep]
  · by_cases hc : e.brand_info_hash = some hash ∧ e.status = .verified
    · simp [queueDomainStep, hc]
    · simp [queueDomainStep, hc]

/-- Witness for `queueDomainForSubmission_step_spec`: an existing `queued`
submission with a stale hash and no external id gets re-queued with a
`submit` action. -/
theorem queueDomainForSubmission_step_spec_witness :
    queueDomainStep 7 1 "foursquare" "h2" (some (newSubmission 5 1 "foursquare" "h1")) =
      { upserted := some { newSubmission 5 1 "foursquare" "h1" with
                           status := .queued, brand_info_hash := some "h2" }
        enqueued := [if strTruthy (newSubmission 5 1 "foursquare" "h1").external_id
                     then .update else .submit] } :=
  (queueDomainForSubmission_step_spec 7 1 "foursquare" "h2"
      (some (newSubmission 5 1 "foursquare" "h1"))).2.1
    (newSubmission 5 1 "foursquare" "h1") rfl (by decide)

/-- **C2 (amended)**: on adapter success, the submission's status becomes
`verified` if the action was `verify` **or** the adapter reported status
`verified`, else `submitted`; the adapter-returned external id and url are
persisted when present (non-empty), the error message is cleared, and the
queue item's `completed_at` is set. -/
theorem processQueueItem_success_updates (now : Nat) (env : ProcEnv)
    (item : CitationQueueItem) (sub : CitationSubmission) (r : AdapterResult)
    (hn : env.clientKnown = true) (hc : env.clientConfigured = true)
    (hb : env.brandInfoFound = true)
    (hx : item.action = .submit ∨ strTruthy sub.external_id = true)
    (ha : env.adapter = .ok r) (hs : r.success = true) :
    ((processQueueItem now env item sub).submission.status =
       if item.action = .verify ∨ r.status = some .verified
       then SubmissionStatus.verified else SubmissionStatus.submitted) ∧
    (∀ s, r.externalId = some s → s ≠ "" →
       (processQueueItem now env item sub).submission.external_id = some s) ∧
    (∀ s, r.externalUrl = some s → s ≠ "" →
       (processQueueItem now env item sub).submission.external_url = some s) ∧
    (processQueueItem now env item sub).submission.error_message = none ∧
    (processQueueItem now env item sub).item.completed_at = some now ∧
    (processQueueItem now env item sub).success = true := by
  have hg : ¬ (item.action ≠ QueueAction.submit ∧ ¬ strTruthy sub.external_id = true) := by
    rcases hx with hx | hx <;> simp [hx]
  rw [processQueueItem]
  simp only [hn, hc, hb, ha, hs, hg, Bool.not_true, Bool.false_eq_true, if_false,
    ite_false, ite_true, if_neg hg]
  by_cases hid : strTruthy r.externalId = true <;>
  by_cases hurl : strTruthy r.externalUrl = true <;>
  by_cases hst : r.status = some VerifyStatus.verified <;>
  by_cases hv : item.action = QueueAction.verify <;>
  · constructor
    · simp [hid, hurl, hst, hv]
    refine ⟨?_, ?_, ?_⟩
    · intro s hsome hne
      have : strTruthy r.externalId = true := by simp [strTruthy, hsome, hne]
      simp_all [strTruthy]
    · intro s hsome hne
      have : strTruthy r.externalUrl = true := by simp [strTruthy, hsome, hne]
      simp_all [strTruthy]
    · simp [hid, hurl, hst, hv]

/-- Witness for `processQueueItem_success_updates`: a successful `submit`
whose adapter returned a fresh external id and url. -/
theorem processQueueItem_success_updates_witness :
    ((processQueueItem 50
        { clientKnown := true, clientConfigured := true, brandInfoFound := true
          adapter := .ok { success := true, externalId := some "fsq9",
                           externalUrl := some "https://foursquare.com/v/fsq9" } }
        { id := 1, submission_id := 2, action := .submit, priority := 50, attempts := 1,
          max_attempts := 3, scheduled_at := 0, started_at := some 50,
          completed_at := none, error_message := none, batch_id := none }
        { id := 2, domain_id := 3, provider_slug := "foursquare", external_id := none,
          external_url := none, status := .submitting, brand_info_hash := some "h",
          error_message := none, error_count := 0, last_submitted_at := none,
          last_verified_at := none, last_error_at := none }).submission.status =
      SubmissionStatus.submitted) ∧
    (processQueueItem 50
        { clientKnown := true, clientConfigured := true, brandInfoFound := true
          adapter := .ok { success := true, externalId := some "fsq9",
                           externalUrl := some "https://foursquare.com/v/fsq9" } }
        { id := 1, submission_id := 2, action := .submit, priority := 50, attempts := 1,
          max_attempts := 3, scheduled_at := 0, started_at := some 50,
          completed_at := none, error_message := none, batch_id := none }
        { id := 2, domain_id := 3, provider_slug := "foursquare", external_id := none,
          external_url := none, status := .submitting, brand_info_hash := some "h",
          error_message := none, error_count := 0, last_submitted_at := none,
          last_verified_at := none, last_error_at := none }).submission.external_id
      = some "fsq9" := by
  have h := processQueueItem_success_updates 50
    { clientKnown := true, clientConfigured := true, brandInfoFound := true
      adapter := .ok { success := true, externalId := some "fsq9",
                       externalUrl := some "https://foursquare.com/v/fsq9" } }
    { id := 1, submission_id := 2, action := .submit, priority := 50, attempts := 1,
      max_attempts := 3, scheduled_at := 0, started_at := some 50,
      completed_at := none, error_message := none, batch_id := none }
    { id := 2, domain_id := 3, provider_slug := "foursquare", external_id := none,
      external_url := none, status := .submitting, brand_info_hash := some "h",
      error_message := none, error_count := 0, last_submitted_at := none,
      last_verified_at := none, last_error_at := none }
    { success := true, externalId := some "fsq9",
      externalUrl := some "https://foursquare.com/v/fsq9" }
    rfl rfl rfl (Or.inl rfl) rfl rfl
  exact ⟨by simpa using h.1, h.2.1 "fsq9" rfl (by decide)⟩

/-- **C2 counterexample**: a `verify` queue item whose adapter call succeeds
with reported status `pending` (not `verified`) still ends with submission
status `verified` — the claim requires `submitted` here. -/
theorem processQueueItem_verify_pending_counterexample :
    (processQueueItem 50
        { clientKnown := true, clientConfigured := true, brandInfoFound := true
          adapter := .ok { success := true, status := some .pending } }
        { id := 1, submission_id := 2, action := .verify, priority := 50, attempts := 1,
          max_attempts := 3, scheduled_at := 0, started_at := some 50,
          completed_at := none, error_message := none, batch_id := none }
        { id := 2, domain_id := 3, provider_slug := "foursquare",
          external_id := some "fsq9", external_url := none, status := .submitting,
          brand_info_hash := some "h", error_message := none, error_count := 0,
          last_submitted_at := none, last_verified_at := none,
          last_error_at := none }).submission.status = SubmissionStatus.verified ∧
    (processQueueItem 50
        { clientKnown := true, clientConfigured := true, brandInfoFound := true
          adapter := .ok { success := true, status := some .pending } }
        { id := 1, submission_id := 2, action := .verify, priority := 50, attempts := 1,
          max_attempts := 3, scheduled_at := 0, started_at := some 50,
          completed_at := none, error_message := none, batch_id := none }
        { id := 2, domain_id := 3, provider_slug := "foursquare",
          external_id := some "fsq9", external_url := none, status := .submitting,
          brand_info_hash := some "h", error_message := none, error_count := 0,
          last_submitted_at := none, last_verified_at := none,
          last_error_at := none }).submission.status ≠ SubmissionStatus.submitted := by
  constructor <;> decide

/-- **C3**: whenever the adapter call fails (returned `success: false`) or
throws, `processQueueItem` sets the submission to `error` with the message,
increments `error_count`, stamps `last_error_at`, resets the queue item's
`started_at` to null and leaves `completed_at` untouched — so a never-completed
item still satisfies the drain-eligibility condition at any due time while
`attempts < max_attempts`. -/
theorem processQueueItem_failure_updates (now : Nat) (env : ProcEnv)
    (item : CitationQueueItem) (sub : CitationSubmission)
    (hn : env.clientKnown = true) (hc : env.clientConfigured = true)
    (hb : env.brandInfoFound = true)
    (hx : item.action = .submit ∨ strTruthy sub.external_id = true)
    (ha : (∃ m, env.adapter = .thrown m) ∨
          (∃ r, env.adapter = .ok r ∧ r.success = false)) :
    (processQueueItem now env item sub).submission.status = SubmissionStatus.error ∧
    (∃ m, (processQueueItem now env item sub).submission.error_message = some m ∧
          (processQueueItem now env item sub).item.error_message = some m ∧
          (processQueueItem now env item sub).message = m) ∧
    (processQueueItem now env item sub).submission.error_count = sub.error_count + 1 ∧
    (processQueueItem now env item sub).submission.last_error_at = some now ∧
    (processQueueItem now env item sub).item.started_at = none ∧
    (processQueueItem now env item sub).item.completed_at = item.completed_at ∧
    (processQueueItem now env item sub).success = false ∧
    (item.completed_at = none →
      ∀ t, (processQueueItem now env item sub).item.scheduled_at ≤ t →
        (processQueueItem now env item sub).item.attempts <
          (processQueueItem now env item sub).item.max_attempts →
        eligible t (processQueueItem now env item sub).item = true) := by
  have hg : ¬ (item.action ≠ QueueAction.submit ∧ ¬ strTruthy sub.external_id = true) := by
    rcases hx with hx | hx <;> simp [hx]
  rw [processQueueItem]
  simp only [hn, hc, hb, Bool.not_true, Bool.false_eq_true, if_false, ite_false,
    ite_true, if_neg hg]
  rcases ha with ⟨m, ham⟩ | ⟨r, har, hrs⟩
  · rw [ham]
    refine ⟨rfl, ⟨m, rfl, rfl, rfl⟩, rfl, rfl, rfl, rfl, rfl, ?_⟩
    intro hcomp t ht hatt
    simp_all [procFail, eligible]
  · rw [har]
    simp only [hrs, Bool.false_eq_true, if_false, ite_false]
    refine ⟨rfl, ⟨strOr r.error "Unknown error", rfl, rfl, rfl⟩, rfl, rfl, rfl, rfl, rfl, ?_⟩
    intro hcomp t ht hatt
    simp_all [procFail, eligible]

/-- Witness for `processQueueItem_failure_updates`: an adapter returning
`success: false` with an error message. -/
theorem processQueueItem_failure_updates_witness :
    (processQueueItem 50
        { clientKnown := true, clientConfigured := true, brandInfoFound := true
          adapter := .ok { success := false, error := some "rate limited" } }
        { id := 1, submission_id := 2, action := .submit, priority := 50, attempts := 1,
          max_attempts := 3, scheduled_at := 0, started_at := some 50,
          completed_at := none, error_message := none, batch_id := none }
        { id := 2, domain_id := 3, provider_slug := "foursquare", external_id := none,
          external_url := none, status := .submitting, brand_info_hash := some "h",
          error_message := none, error_count := 0, last_submitted_at := none,
          last_verified_at := none, last_error_at := none }).submission.status
      = SubmissionStatus.error ∧
    (processQueueItem 50
        { clientKnown := true, clientConfigured := true, brandInfoFound := true
          adapter := .ok { success := false, error := some "rate limited" } }
        { id := 1, submission_id := 2, action := .submit, priority := 50, attempts := 1,
          max_attempts := 3, scheduled_at := 0, started_at := some 50,
          completed_at := none, error_message := none, batch_id := none }
        { id := 2, domain_id := 3, provider_slug := "foursquare", external_id := none,
          external_url := none, status := .submitting, brand_info_hash := some "h",
          error_message := none, error_count := 0, last_submitted_at := none,
          last_verified_at := none, last_error_at := none }).item.started_at = none := by
  have h := processQueueItem_failure_updates 50
    { clientKnown := true, clientConfigured := true, brandInfoFound := true
      adapter := .ok { success := false, error := some "rate limited" } }
    { id := 1, submission_id := 2, action := .submit, priority := 50, attempts := 1,
      max_attempts := 3, scheduled_at := 0, started_at := some 50,
      completed_at := none, error_message := none, batch_id := none }
    { id := 2, domain_id := 3, provider_slug := "foursquare", external_id := none,
      external_url := none, status := .submitting, brand_info_hash := some "h",
      error_message := none, error_count := 0, last_submitted_at := none,
      last_verified_at := none, last_error_at := none }
    rfl rfl rfl (Or.inl rfl)
    (Or.inr ⟨{ success := false, error := some "rate limited" }, rfl, rfl⟩)
  exact ⟨h.1, h.2.2.2.2.1⟩

/-- **C10**: an `update`/`verify`/`delete` queue item whose submission has no
(truthy) external id makes no adapter call: the submission goes to `error`
with a `No external ID …` message, `error_count` is incremented, and the
queue item's `started_at` is reset — exactly the adapter-failure (`procFail`)
treatment, so the ordinary retry machinery applies. -/
theorem processQueueItem_missing_external_id (now : Nat) (env : ProcEnv)
    (item : CitationQueueItem) (sub : CitationSubmission)
    (hn : env.clientKnown = true) (hc : env.clientConfigured = true)
    (hb : env.brandInfoFound = true)
    (hact : item.action ≠ .submit) (hx : strTruthy sub.external_id = false) :
    (processQueueItem now env item sub).adapterInvoked = false ∧
    processQueueItem now env item sub
      = procFail now sub item (noExternalIdMsg item.action) false ∧
    hasPrefixChars "No external ID".data (noExternalIdMsg item.action).data = true ∧
    (processQueueItem now env item sub).submission.status = SubmissionStatus.error ∧
    (processQueueItem now env item sub).submission.error_message
      = some (noExternalIdMsg item.action) ∧
    (processQueueItem now env item sub).submission.error_count = sub.error_count + 1 ∧
    (processQueueItem now env item sub).item.started_at = none ∧
    (processQueueItem now env item sub).item.completed_at = item.completed_at := by
  have hg : item.action ≠ QueueAction.submit ∧ ¬ strTruthy sub.external_id = true := by
    simp [hact, hx]
  have hred : processQueueItem now env item sub
      = procFail now sub item (noExternalIdMsg item.action) false := by
    rw [processQueueItem]
    simp [hn, hc, hb, hg]
  rw [hred]
  refine ⟨rfl, rfl, ?_, rfl, rfl, rfl, rfl, rfl⟩
  cases h : item.action with
  | submit => exact absurd h hact
  | update => decide
  | verify => decide
  | delete => decide

/-- Witness for `processQueueItem_missing_external_id`: a `verify` item whose
submission has no external id. -/
theorem processQueueItem_missing_external_id_witness :
    (processQueueItem 50
        { clientKnown := true, clientConfigured := true, brandInfoFound := true
          adapter := .ok { success := true } }
        { id := 1, submission_id := 2, action := .verify, priority := 50, attempts := 1,
          max_attempts := 3, scheduled_at := 0, started_at := some 50,
          completed_at := none, error_message := none, batch_id := none }
        { id := 2, domain_id := 3, provider_slug := "foursquare", external_id := none,
          external_url := none, status := .submitting, brand_info_hash := some "h",
          error_message := none, error_count := 0, last_submitted_at := none,
          last_verified_at := none, last_error_at := none }).adapterInvoked = false ∧
    (processQueueItem 50
        { clientKnown := true, clientConfigured := true, brandInfoFound := true
          adapter := .ok { success := true } }
        { id := 1, submission_id := 2, action := .verify, priority := 50, attempts := 1,
          max_attempts := 3, scheduled_at := 0, started_at := some 50,
          completed_at := none, error_message := none, batch_id := none }
        { id := 2, domain_id := 3, provider_slug := "foursquare", external_id := none,
          external_url := none, status := .submitting, brand_info_hash := some "h",
          error_message := none, error_count := 0, last_submitted_at := none,
          last_verified_at := none, last_error_at := none }).submission.error_message
      = some (noExternalIdMsg .verify) := by
  have h := processQueueItem_missing_external_id 50
    { clientKnown := true, clientConfigured := true, brandInfoFound := true
      adapter := .ok { success := true } }
    { id := 1, submission_id := 2, action := .verify, priority := 50, attempts := 1,
      max_attempts := 3, scheduled_at := 0, started_at := some 50,
      completed_at := none, error_message := none, batch_id := none }
    { id := 2, domain_id := 3, provider_slug := "foursquare", external_id := none,
      external_url := none, status := .submitting, brand_info_hash := some "h",
      error_message := none, error_count := 0, last_submitted_at := none,
      last_verified_at := none, last_error_at := none }
    rfl rfl rfl (by decide) rfl
  exact ⟨h.1, h.2.2.2.2.1⟩

/-- Counter bookkeeping of `applyBatchResults`: each processed item bumps
exactly one of the two counters. -/
theorem applyBatchResults_counts (flags : List Bool) (b : CitationBatch) :
    (applyBatchResults b flags).completed_submissions
        = b.completed_submissions + flags.count true ∧
    (applyBatchResults b flags).failed_submissions
        = b.failed_submissions + flags.count false := by
  induction flags generalizing b with
  | nil => simp [applyBatchResults]
  | cons f fs ih =>
    have h := ih (updateBatchCounters b f)
    simp only [applyBatchResults, List.foldl_cons] at h ⊢
    rcases h with ⟨h1, h2⟩
    rw [h1, h2]
    cases f <;> simp [updateBatchCounters, List.count_cons] <;> omega

/-- **C5**: batch counters are incremented on every processed item carrying
the batch id, on success and failure alike; once no incomplete queue item of
the batch remains, the completion check marks the batch `completed` when at
least one item succeeded and `failed` when at least one failed and none
succeeded. -/
theorem batch_completion_spec (b : CitationBatch) (flags : List Bool) (now : Nat) :
    ((applyBatchResults b flags).completed_submissions
        = b.completed_submissions + flags.count true) ∧
    ((applyBatchResults b flags).failed_submissions
        = b.failed_submissions + flags.count false) ∧
    (b.completed_submissions = 0 → b.failed_submissions = 0 →
      ((true ∈ flags →
          (checkBatchCompletion now (applyBatchResults b flags) 0).status
            = BatchStatus.completed) ∧
       (false ∈ flags → true ∉ flags →
          (checkBatchCompletion now (applyBatchResults b flags) 0).status
            = BatchStatus.failed))) := by
  obtain ⟨h1, h2⟩ := applyBatchResults_counts flags b
  refine ⟨h1, h2, ?_⟩
  intro hc0 hf0
  constructor
  · intro htrue
    have hpos : 0 < flags.count true := List.count_pos_iff.mpr htrue
    have hcond : ¬ (0 < (applyBatchResults b flags).failed_submissions ∧
        (applyBatchResults b flags).completed_submissions = 0) := by
      rintro ⟨-, hz⟩
      rw [h1, hc0] at hz
      omega
    simp [checkBatchCompletion, hcond]
  · intro hfalse htrue
    have hfpos : 0 < flags.count false := List.count_pos_iff.mpr hfalse
    have hz : flags.count true = 0 := List.count_eq_zero.mpr htrue
    have hcond : 0 < (applyBatchResults b flags).failed_submissions ∧
        (applyBatchResults b flags).completed_submissions = 0 := by
      constructor
      · rw [h2, hf0]; omega
      · rw [h1, hc0, hz]
    simp [checkBatchCompletion, hcond]

/-- Witness for `batch_completion_spec`: a fresh three-item batch with one
success and two failures completes as `completed`. -/
theorem batch_completion_spec_witness :
    (checkBatchCompletion 90
        (applyBatchResults
          { id := 10, status := .processing, total_submissions := 3,
            completed_submissions := 0, failed_submissions := 0,
            started_at := some 1, completed_at := none }
          [true, false, false]) 0).status = BatchStatus.completed := by
  have h := batch_completion_spec
    { id := 10, status := .processing, total_submissions := 3,
      completed_submissions := 0, failed_submissions := 0,
      started_at := some 1, completed_at := none }
    [true, false, false] 90
  exact (h.2.2 rfl rfl).1 (by decide)

/-- A pattern is a prefix of itself followed by anything. -/
theorem hasPrefixChars_append (pat rest : List Char) :
    hasPrefixChars pat (pat ++ rest) = true := by
  induction pat with
  | nil => rfl
  | cons c cs ih => simp [hasPrefixChars, ih]

/-- The empty pattern occurs in every character list. -/
theorem containsChars_nil (l : List Char) : containsChars [] l = true := by
  cases l <;> simp [containsChars, hasPrefixChars, List.isEmpty]

/-- A pattern occurs in any list of the form `pre ++ pat ++ suf`. -/
theorem containsChars_parts (pre pat suf : List Char) :
    containsChars pat (pre ++ pat ++ suf) = true := by
  induction pre with
  | nil =>
    cases pat with
    | nil => simpa using containsChars_nil suf
    | cons c cs =>
      simp only [List.nil_append, List.cons_append, containsChars]
      have : hasPrefixChars (c :: cs) (c :: (cs ++ suf)) = true := by
        simpa using hasPrefixChars_append (c :: cs) suf
      simp [this]
  | cons c pre ih =>
    simp only [List.cons_append, containsChars, Bool.or_eq_true]
    refine Or.inr ?_
    simpa [List.append_assoc] using ih

/-- **C7 (amended)**: a 404 response from the provider maps to
`{success: true, status: 'not_found'}` without throwing; any other transport
or auth error whose message does not contain the substring `'404'` maps to
`{success: false, status: 'error'}` (an error message containing `'404'` is
also treated as not-found, whatever the actual HTTP status). -/
theorem fsqVerify_not_found_mapping :
    (∀ body : String, fsqVerify (.httpError 404 body) =
        { success := true, status := some .not_found,
          message := some "Place not found" }) ∧
    (∀ (o : FsqFetch FoursquarePlace) (m : String), fsqErrMessage o = some m →
        strIncludes m "404" = false →
        fsqVerify o = { success := false, status := some .error, error := some m }) := by
  constructor
  · intro body
    have hdata : ("Foursquare API error: " ++ toString (404 : Nat) ++ " - " ++ body).data
        = "Foursquare API error: ".data ++ "404".data ++ (" - ".data ++ body.data) := by
      have h404 : (toString (404 : Nat)) = "404" := rfl
      rw [h404]
      simp [String.data_append]
    have hmsg : strIncludes
        ("Foursquare API error: " ++ toString (404 : Nat) ++ " - " ++ body) "404" = true := by
      rw [strIncludes, hdata]
      exact containsChars_parts _ _ _
    simp [fsqVerify, fsqVerifyCatch, hmsg]
  · intro o m hm hno
    cases o with
    | ok p => simp [fsqErrMessage] at hm
    | httpError s b =>
      have hm' : m = "Foursquare API error: " ++ toString s ++ " - " ++ b := by
        simpa [fsqErrMessage] using hm.symm
      simp [fsqVerify, fsqVerifyCatch, ← hm', hno]
    | thrown msg =>
      have hm' : m = msg := by simpa [fsqErrMessage] using hm.symm
      simp [fsqVerify, fsqVerifyCatch, ← hm', hno]

/-- Witness for `fsqVerify_not_found_mapping`: a 404 with an empty body, and
a connection failure without `'404'` in its message. -/
theorem fsqVerify_not_found_mapping_witness :
    fsqVerify (.httpError 404 "") =
      { success := true, status := some .not_found,
        message := some "Place not found" } ∧
    fsqVerify (.thrown "ECONNREFUSED") =
      { success := false, status := some .error, error := some "ECONNREFUSED" } :=
  ⟨fsqVerify_not_found_mapping.1 "",
   fsqVerify_not_found_mapping.2 (.thrown "ECONNREFUSED") "ECONNREFUSED" rfl (by decide)⟩

/-- **C7 counterexample**: a 401 auth error whose body text happens to
contain `"404"` is mapped to `{success: true, status: 'not_found'}`, although
the claim requires every non-404 transport/auth error to yield
`{success: false, status: 'error'}`. -/
theorem fsqVerify_auth_error_counterexample :
    (fsqVerify (.httpError 401 "permission denied, see docs/404")).success = true ∧
    (fsqVerify (.httpError 401 "permission denied, see docs/404")).status
      = some VerifyStatus.not_found := by
  constructor <;> decide

/-- **C6** (exhibit of the code bug): `brandB` differs from `brandA` in a
weekly-hours entry and a social link, yet `hashBrandInfo` returns the same
fingerprint, because the `JSON.stringify` replacer array filters property
names at every nesting level and therefore serializes the `hours` and
`socialLinks` maps as `{}`.  A changed top-level field (phone digit,
`brandC`) does change the fingerprint. -/
theorem hashBrandInfo_misses_nested_changes :
    hashBrandInfo brandA = hashBrandInfo brandB ∧
    brandA.hours ≠ brandB.hours ∧
    brandA.social_links ≠ brandB.social_links ∧
    serializeNormalized (normalizeBrandInfo brandA)
      = serializeNormalized (normalizeBrandInfo brandB) ∧
    hashBrandInfo brandA ≠ hashBrandInfo brandC := by
  have hser : serializeNormalized (normalizeBrandInfo brandA)
      = serializeNormalized (normalizeBrandInfo brandB) := by decide
  refine ⟨?_, by decide, by decide, hser, by decide⟩
  exact congrArg (fun s => (sha256hex (utf8Bytes s)).take 16) hser

/-- Every item returned by `getNextQueueItems` comes from the snapshot and
satisfies the eligibility condition. -/
theorem mem_getNextQueueItems {limit now : Nat} {st : List CitationQueueItem}
    {q : CitationQueueItem} (h : q ∈ getNextQueueItems limit now st) :
    q ∈ st ∧ eligible now q = true := by
  have h1 := List.mem_of_mem_take h
  rw [List.mem_insertionSort] at h1
  exact ⟨(List.mem_filter.mp h1).1, (List.mem_filter.mp h1).2⟩

/-- The selected list is in drain order. -/
theorem getNextQueueItems_sorted (limit now : Nat) (st : List CitationQueueItem) :
    (getNextQueueItems limit now st).Pairwise queueRel :=
  List.Pairwise.sublist (List.take_sublist _ _)
    (List.sorted_insertionSort queueRel _)

/-- Processing never changes a queue item's id. -/
theorem processedItem_id (now : Nat) (b : Bool) (msg : String) (q : CitationQueueItem) :
    (processedItem now b msg q).id = q.id := by
  cases b <;>
    simp [processedItem, markQueueItemStarted, markQueueItemCompleted, markQueueItemFailed]

/-- Processing increments a queue item's attempts by exactly one —
before the adapter runs, so failed and thrown calls count too. -/
theorem processedItem_attempts (now : Nat) (b : Bool) (msg : String)
    (q : CitationQueueItem) : (processedItem now b msg q).attempts = q.attempts + 1 := by
  cases b <;>
    simp [processedItem, markQueueItemStarted, markQueueItemCompleted, markQueueItemFailed]

/-- Processing never changes a queue item's `max_attempts`. -/
theorem processedItem_max (now : Nat) (b : Bool) (msg : String) (q : CitationQueueItem) :
    (processedItem now b msg q).max_attempts = q.max_attempts := by
  cases b <;>
    simp [processedItem, markQueueItemStarted, markQueueItemCompleted, markQueueItemFailed]

/-- Looking an id up after a drain cycle: the row is the processed version
of the old row when it was selected, the old row otherwise. -/
theorem lookupItem_drainCycle (id limit now : Nat) (succ : Nat → Bool) (msg : String)
    (st : List CitationQueueItem) :
    lookupItem id (drainCycle limit now succ msg st)
      = (lookupItem id st).map fun q =>
          if q.id ∈ selectedIds limit now st then processedItem now (succ q.id) msg q
          else q := by
  unfold lookupItem drainCycle
  rw [List.find?_map]
  congr 1
  congr 1
  funext q
  by_cases hsel : q.id ∈ selectedIds limit now st <;>
    simp [Function.comp, hsel, processedItem_id]

/-- A drain cycle preserves the id column. -/
theorem drainCycle_ids (limit now : Nat) (succ : Nat → Bool) (msg : String)
    (st : List CitationQueueItem) :
    (drainCycle limit now succ msg st).map (·.id) = st.map (·.id) := by
  unfold drainCycle
  rw [List.map_map]
  apply List.map_congr_left
  intro q _
  by_cases hsel : q.id ∈ selectedIds limit now st <;>
    simp [Function.comp, hsel, processedItem_id]

/-- With unique ids, if the id of a stored row is selected then that row is
eligible. -/
theorem selected_eligible {st : List CitationQueueItem} {id limit now : Nat}
    {q : CitationQueueItem} (hN : (st.map (·.id)).Nodup)
    (hq : lookupItem id st = some q) (hmem : id ∈ selectedIds limit now st) :
    eligible now q = true := by
  obtain ⟨m, hm, hmid⟩ := List.mem_map.mp hmem
  obtain ⟨hmst, helig⟩ := mem_getNextQueueItems hm
  have hqst : q ∈ st := List.mem_of_find?_eq_some hq
  have hqid : q.id = id := by simpa using List.find?_some hq
  have hqm : q = m := List.inj_on_of_nodup_map hN hqst hmst (by rw [hqid, hmid])
  rw [hqm]; exact helig

/-- A row whose attempts have reached `max_attempts` is never selected. -/
theorem not_selected_of_exhausted {limit now id : Nat} {st : List CitationQueueItem}
    {q : CitationQueueItem} (hN : (st.map (·.id)).Nodup)
    (hq : lookupItem id st = some q) (hmax : q.max_attempts ≤ q.attempts) :
    id ∉ selectedIds limit now st := by
  intro hmem
  have h := selected_eligible hN hq hmem
  simp only [eligible, Bool.and_eq_true, decide_eq_true_eq] at h
  omega

/-- Across any schedule of drain cycles, a row is selected at most
`max_attempts - attempts` more times. -/
theorem timesSelected_le_of_lookup (succ : Nat → Bool) (msg : String) (id : Nat) :
    ∀ (sched : List (Nat × Nat)) (st : List CitationQueueItem) (q : CitationQueueItem),
      (st.map (·.id)).Nodup → lookupItem id st = some q →
      timesSelected succ msg id sched st ≤ q.max_attempts - q.attempts := by
  intro sched
  induction sched with
  | nil => intro st q _ _; simp [timesSelected]
  | cons p rest ih =>
    obtain ⟨limit, now⟩ := p
    intro st q hN hq
    have hqid : q.id = id := by simpa using List.find?_some hq
    have hN' : ((drainCycle limit now succ msg st).map (·.id)).Nodup := by
      rw [drainCycle_ids]; exact hN
    by_cases hmem : id ∈ selectedIds limit now st
    · have helig := selected_eligible hN hq hmem
      have hlt : q.attempts < q.max_attempts := by
        simp only [eligible, Bool.and_eq_true, decide_eq_true_eq] at helig
        omega
      have hq' : lookupItem id (drainCycle limit now succ msg st)
          = some (processedItem now (succ id) msg q) := by
        rw [lookupItem_drainCycle, hq]
        simp [hqid, hmem]
      have hrec := ih (drainCycle limit now succ msg st)
        (processedItem now (succ id) msg q) hN' hq'
      rw [processedItem_attempts, processedItem_max] at hrec
      rw [timesSelected, if_pos hmem]
      omega
    · have hq' : lookupItem id (drainCycle limit now succ msg st) = some q := by
        rw [lookupItem_drainCycle, hq]
        simp [hqid, hmem]
      have hrec := ih (drainCycle limit now succ msg st) q hN' hq'
      rw [timesSelected, if_neg hmem]
      omega

/-- **C4**: a drain selects only items with `completed_at` null,
`scheduled_at ≤ now` and `attempts < max_attempts`, in order of priority
descending then `scheduled_at` ascending; every processed item's attempts
counter is incremented (before the adapter call, so failures count); hence a
queue item whose adapter call always fails — starting from the stored
default `attempts = 0` — is selected and processed at most `max_attempts`
times across all drain cycles, and an exhausted item is never selected. -/
theorem retry_bound_spec :
    (∀ (limit now : Nat) (st : List CitationQueueItem) (q : CitationQueueItem),
       q ∈ getNextQueueItems limit now st →
       q.completed_at = none ∧ q.scheduled_at ≤ now ∧ q.attempts < q.max_attempts) ∧
    (∀ (limit now : Nat) (st : List CitationQueueItem),
       (getNextQueueItems limit now st).Pairwise queueRel) ∧
    (∀ (now : Nat) (b : Bool) (msg : String) (q : CitationQueueItem),
       (processedItem now b msg q).attempts = q.attempts + 1) ∧
    (∀ (succ : Nat → Bool) (msg : String) (id : Nat) (sched : List (Nat × Nat))
       (st : List CitationQueueItem) (q : CitationQueueItem), succ id = false →
       (st.map (·.id)).Nodup → lookupItem id st = some q → q.attempts = 0 →
       timesSelected succ msg id sched st ≤ q.max_attempts) ∧
    (∀ (limit now : Nat) (st : List CitationQueueItem) (id : Nat)
       (q : CitationQueueItem), (st.map (·.id)).Nodup → lookupItem id st = some q →
       q.max_attempts ≤ q.attempts → id ∉ selectedIds limit now st) := by
  refine ⟨?_, ?_, ?_, ?_, ?_⟩
  · intro limit now st q h
    have h2 := (mem_getNextQueueItems h).2
    simp only [eligible, Bool.and_eq_true, decide_eq_true_eq,
      Option.isNone_iff_eq_none] at h2
    exact ⟨h2.1.1, h2.1.2, h2.2⟩
  · exact fun limit now st => getNextQueueItems_sorted limit now st
  · exact fun now b msg q => processedItem_attempts now b msg q
  · intro succ msg id sched st q _ hN hq h0
    have h := timesSelected_le_of_lookup succ msg id sched st q hN hq
    omega
  · exact fun limit now st id q hN hq hmax => not_selected_of_exhausted hN hq hmax

/-- Witness for `retry_bound_spec`: a single always-failing item with
`max_attempts = 3` and four scheduled drain cycles is processed at most —
and in fact exactly — three times. -/
theorem retry_bound_spec_witness :
    timesSelected (fun _ => false) "network down" 1
      [(5, 100), (5, 101), (5, 102), (5, 103)]
      [{ id := 1, submission_id := 2, action := .submit, priority := 50, attempts := 0,
         max_attempts := 3, scheduled_at := 0, started_at := none, completed_at := none,
         error_message := none, batch_id := none }] ≤ 3 ∧
    timesSelected (fun _ => false) "network down" 1
      [(5, 100), (5, 101), (5, 102), (5, 103)]
      [{ id := 1, submission_id := 2, action := .submit, priority := 50, attempts := 0,
         max_attempts := 3, scheduled_at := 0, started_at := none, completed_at := none,
         error_message := none, batch_id := none }] = 3 := by
  constructor
  · exact retry_bound_spec.2.2.2.1 (fun _ => false) "network down" 1
      [(5, 100), (5, 101), (5, 102), (5, 103)]
      [{ id := 1, submission_id := 2, action := .submit, priority := 50, attempts := 0,
         max_attempts := 3, scheduled_at := 0, started_at := none, completed_at := none,
         error_message := none, batch_id := none }]
      { id := 1, submission_id := 2, action := .submit, priority := 50, attempts := 0,
        max_attempts := 3, scheduled_at := 0, started_at := none, completed_at := none,
        error_message := none, batch_id := none }
      rfl (by decide) rfl rfl
  · decide

end Citations
